import Mathlib

/-!
Verification of the HTTP transport adapter of `strawberry` (Flask view).

The file shallowly embeds `src/strawberry/flask/views.py` (`GraphQLView.dispatch_request`).
Collaborators that are repository code not present under `src/` (the request helpers in
`strawberry.http`, the upload resolver in `strawberry.file_uploads.utils`, the operation-type
utilities in `strawberry.types.graphql` and `strawberry.schema.exceptions`, and the GraphiQL
helpers in `strawberry.flask.graphiql`) are modelled from the specification and marked so in
their doc comments.  The Python standard-library `json.loads`, the Flask request object and
the GraphQL executor are external collaborators: they enter the embedding as explicit inputs
(an abstract decode oracle and executor bundled in structures below).
-/

/-- JSON-like trees as produced by `json.loads`, extended with the `file` constructor because
the multipart upload resolver overwrites placeholders with live uploaded-file handles
(handles are identified by a natural number). -/
inductive Json where
  | null : Json
  | bool : Bool → Json
  | num : Int → Json
  | str : String → Json
  | arr : List Json → Json
  | obj : List (String × Json) → Json
  | file : Nat → Json

/-- An HTTP response as constructed by `flask.Response(...)` in the view:
a status code, a content type and a body. -/
structure Response where
  status : Nat
  content_type : String
  body : String
deriving DecidableEq

/-- Flask's default response mimetype, used whenever the view does not set one. -/
def defaultContentType : String := "text/html; charset=utf-8"

/-- The raw HTTP request surface the view reads: method, `Content-Type` header,
body bytes, form fields, uploaded files (key to handle) and query parameters. -/
structure Request where
  method : String
  content_type : Option String
  data : String
  form : List (String × String)
  files : List (String × Nat)
  args : List (String × String)

/-- The view's constructor configuration (`GraphQLView.__init__`):
`graphiql` and `allow_queries_via_get`, both defaulting to true. -/
structure GraphQLView where
  graphiql : Bool := true
  allow_queries_via_get : Bool := true

/-- Whether `pat` is a prefix-aligned occurrence at some suffix of `s`. -/
def infixCheck (pat : List Char) : List Char → Bool
  | [] => pat.isEmpty
  | c :: rest => List.isPrefixOf pat (c :: rest) || infixCheck pat rest

/-- `pat in s` on Python strings: substring containment. -/
def containsSubstr (s pat : String) : Bool :=
  infixCheck pat.data s.data

/-- `s.startswith(pat)` on Python strings: prefix test. -/
def startsWithStr (s pat : String) : Bool :=
  List.isPrefixOf pat.data s.data

/-- `form.get(key, dflt)` on the Flask form multi-dict. -/
def formGet (form : List (String × String)) (key dflt : String) : String :=
  (List.lookup key form).getD dflt

/-- An operation type, `strawberry.types.graphql.OperationType`. -/
inductive OperationType where
  | query
  | mutation
  | subscription
deriving DecidableEq

/-- Modelled from the spec: `OperationType.from_http` (in `strawberry.types.graphql`,
not under `src/`) derives the allowed operation types from the HTTP method —
"`POST` ⇒ all three operation types allowed. `GET` ⇒ `\x7bQUERY\x7d` by default". -/
def OperationType.from_http (method : String) : List OperationType :=
  if method = "GET" then [OperationType.query]
  else if method = "POST" then [OperationType.query, OperationType.mutation, OperationType.subscription]
  else []

/-- The plural rendering of an operation type used in error reasons. -/
def OperationType.as_string : OperationType → String
  | OperationType.query => "queries"
  | OperationType.mutation => "mutations"
  | OperationType.subscription => "subscriptions"

/-- `strawberry.schema.exceptions.InvalidOperationTypeError`: raised by the executor when
the parsed operation type is outside the allowed set. -/
structure InvalidOperationTypeError where
  operation_type : OperationType
deriving DecidableEq

/-- Modelled from the spec: `InvalidOperationTypeError.as_http_error_reason(method)`
(not under `src/`) — "the failure carries a method-specific human-readable reason
(e.g., \"mutations are not allowed when using GET\")". -/
def InvalidOperationTypeError.as_http_error_reason
    (e : InvalidOperationTypeError) (method : String) : String :=
  e.operation_type.as_string ++ " are not allowed when using " ++ method

/-- The canonical request form, `strawberry.http.parse_request_data`'s result.
The source field `variables` is a reserved word in Lean, hence `variable_values`
(the keyword name under which the view forwards it to the executor). -/
structure RequestData where
  query : Json
  variable_values : Option Json
  operation_name : Option Json

/-- Whether a parsed payload carries a `query` field. -/
def has_query_field : Json → Bool
  | Json.obj fields => (List.lookup "query" fields).isSome
  | _ => false

/-- Modelled from the spec: `strawberry.http.parse_request_data` (not under `src/`) —
"extract `query`/`variables`/`operationName`; absence of `query` fails with
`MissingQueryError`". -/
def parse_request_data (data : Json) : Except Unit RequestData :=
  match data with
  | Json.obj fields =>
    match List.lookup "query" fields with
    | some q =>
      Except.ok ⟨q, List.lookup "variables" fields, List.lookup "operationName" fields⟩
    | none => Except.error ()
  | _ => Except.error ()

/-- The result an executor produces: `data`, `errors`, `extensions`, each possibly absent. -/
structure ExecutionResult where
  data : Option Json
  errors : Option (List Json)
  extensions : Option Json

/-- Modelled from the spec: `strawberry.http.process_result` (not under `src/`) —
"body = JSON `\x7b\"data\": ..., \"errors\": ..., \"extensions\": ...\x7d` with absent
fields omitted". -/
def process_result (r : ExecutionResult) : Json :=
  Json.obj
    ((match r.data with
      | some d => [("data", d)]
      | none => []) ++
     (match r.errors with
      | some es => [("errors", Json.arr es)]
      | none => []) ++
     (match r.extensions with
      | some e => [("extensions", e)]
      | none => []))

mutual

/-- `json.dumps` with its default settings (item separator `", "`, key separator `": "`),
as called at the end of `dispatch_request`; the view passes no encoder or dumps
parameters.  String escaping is the identity on the characters exercised here. -/
def dumps : Json → String
  | Json.null => "null"
  | Json.bool b => if b then "true" else "false"
  | Json.num n => toString n
  | Json.str s => "\"" ++ s ++ "\""
  | Json.arr xs => "[" ++ dumpsArr xs ++ "]"
  | Json.obj fields => "\x7b" ++ dumpsObj fields ++ "\x7d"
  | Json.file h => "\"<file " ++ toString h ++ ">\""

/-- Serialization of array elements, joined by the default item separator. -/
def dumpsArr : List Json → String
  | [] => ""
  | [x] => dumps x
  | x :: y :: rest => dumps x ++ ", " ++ dumpsArr (y :: rest)

/-- Serialization of object members, joined by the default separators. -/
def dumpsObj : List (String × Json) → String
  | [] => ""
  | [(k, v)] => "\"" ++ k ++ "\": " ++ dumps v
  | (k, v) :: m :: rest => "\"" ++ k ++ "\": " ++ dumps v ++ ", " ++ dumpsObj (m :: rest)

end

/-- Replacement of the value bound to `key` in a Python dict, keeping the rest intact. -/
def setField : List (String × Json) → String → Json → List (String × Json)
  | [], _, _ => []
  | (k, v) :: rest, key, val =>
    if k = key then (k, val) :: rest else (k, v) :: setField rest key val

/-- Modelled from the spec: `add_file_to_operations` in `strawberry.file_uploads.utils`
(not under `src/`) — "traverse `operations` by splitting the path into segments
(each segment either an object field name or a numeric list index) and overwrite the
value at that location with the file handle.  A path that does not resolve to an
existing container fails the same way." -/
def add_file_to_operations (doc : Json) (handle : Nat) : List String → Except Unit Json
  | [] => Except.error ()
  | [seg] =>
    match doc with
    | Json.obj fields =>
      if (List.lookup seg fields).isSome then
        Except.ok (Json.obj (setField fields seg (Json.file handle)))
      else Except.error ()
    | Json.arr items =>
      match seg.toNat? with
      | some i =>
        if i < items.length then Except.ok (Json.arr (items.set i (Json.file handle)))
        else Except.error ()
      | none => Except.error ()
    | _ => Except.error ()
  | seg :: rest =>
    match doc with
    | Json.obj fields =>
      match List.lookup seg fields with
      | some child =>
        match add_file_to_operations child handle rest with
        | Except.ok c => Except.ok (Json.obj (setField fields seg c))
        | Except.error e => Except.error e
      | none => Except.error ()
    | Json.arr items =>
      match seg.toNat? with
      | some i =>
        match items[i]? with
        | some child =>
          match add_file_to_operations child handle rest with
          | Except.ok c => Except.ok (Json.arr (items.set i c))
          | Except.error e => Except.error e
        | none => Except.error ()
      | none => Except.error ()
    | _ => Except.error ()

/-- One key's worth of substitution: apply every path of the key to the document,
using the uploaded-file handle of that key. -/
def resolve_paths (ops : Json) (handle : Nat) : List Json → Except Unit Json
  | [] => Except.ok ops
  | Json.str p :: rest =>
    match add_file_to_operations ops handle (p.splitOn ".") with
    | Except.ok next => resolve_paths next handle rest
    | Except.error e => Except.error e
  | _ :: _ => Except.error ()

/-- Iteration over the entries of the file map, threading the rewritten document. -/
def resolve_entries (files : List (String × Nat)) :
    Json → List (String × Json) → Except Unit Json
  | ops, [] => Except.ok ops
  | ops, (key, paths) :: rest =>
    match List.lookup key files with
    | none => Except.error ()
    | some handle =>
      match paths with
      | Json.arr ps =>
        match resolve_paths ops handle ps with
        | Except.ok next => resolve_entries files next rest
        | Except.error e => Except.error e
      | _ => Except.error ()

/-- Modelled from the spec: `strawberry.file_uploads.utils.replace_placeholders_with_files`
(not under `src/`) — "for each `(key, paths)` in `fileMap`, look up the uploaded file
handle for `key` in `files` — missing key fails ... For each `path` in `paths`, traverse
`operations` ... and overwrite the value at that location with the file handle."  Any
failure maps upward to the view's 400 \"File(s) missing in form data\" response. -/
def replace_placeholders_with_files
    (operations files_map : Json) (files : List (String × Nat)) : Except Unit Json :=
  match files_map with
  | Json.obj entries => resolve_entries files operations entries
  | _ => Except.error ()

/-- Concatenation of the optional `operationName` member onto a query-param payload. -/
def appendOperationName
    (fields : List (String × Json)) (params : List (String × String)) :
    List (String × Json) :=
  match List.lookup "operationName" params with
  | some o => fields ++ [("operationName", Json.str o)]
  | none => fields

/-- Modelled from the spec: `strawberry.http.parse_query_params` (not under `src/`) —
"map `query`, `variables` (JSON-decoded if present, else absent), `operationName`
directly; malformed `variables` JSON fails".  `loads` is the `json.loads` oracle. -/
def parse_query_params
    (loads : String → Except Unit Json) (params : List (String × String)) :
    Except Unit Json :=
  let base :=
    match List.lookup "query" params with
    | some q => [("query", Json.str q)]
    | none => []
  match List.lookup "variables" params with
  | some v =>
    match loads v with
    | Except.ok j => Except.ok (Json.obj (appendOperationName (base ++ [("variables", j)]) params))
    | Except.error e => Except.error e
  | none => Except.ok (Json.obj (appendOperationName base params))

/-- The external collaborators the view calls that are not the executor:
the standard-library `json.loads` (an oracle from the decoded bytes or form-field
string to a parse outcome), the GraphiQL decision predicate
`strawberry.flask.graphiql.should_render_graphiql`, and the rendered page
`render_template_string(render_graphiql_page())`. -/
structure External where
  loads : String → Except Unit Json
  should_render_graphiql : Bool → Request → Bool
  rendered_graphiql_page : String

/-- The executor collaborator (`schema.execute_sync`): how it classifies the defining
operation of a query document, and the result it produces when the operation type
is permitted. -/
structure Executor where
  op_type_of : Json → OperationType
  run : RequestData → ExecutionResult

/-- Modelled from the spec: the executor contract — "`execute_sync(...) ->
ExecutionResult`, raising a distinguishable condition when the parsed operation's
type is outside `allowed_operation_types`". -/
def execute_sync (ex : Executor) (rd : RequestData) (allowed : List OperationType) :
    Except InvalidOperationTypeError ExecutionResult :=
  if ex.op_type_of rd.query ∈ allowed then Except.ok (ex.run rd)
  else Except.error ⟨ex.op_type_of rd.query⟩

/-- The allowed operation types the view computes before executing:
`OperationType.from_http(method)`, minus `QUERY` when the method is GET and
`allow_queries_via_get` is false (views.py lines 102-105). -/
def allowed_operation_types (v : GraphQLView) (method : String) : List OperationType :=
  let ops := OperationType.from_http method
  if v.allow_queries_via_get = false ∧ method = "GET" then
    ops.filter (fun t => t ≠ OperationType.query)
  else ops

/-- The tail of `dispatch_request` after a data document is obtained (views.py
lines 94-122): normalize via `parse_request_data` (absence of a query gives 400),
execute with the allowed operation types (an `InvalidOperationTypeError` gives 400
with the method-specific reason), and otherwise answer 200 with the JSON-serialized
processed result. -/
def dispatch_after_data
    (v : GraphQLView) (ex : Executor) (req : Request) (data : Json) : Response :=
  match parse_request_data data with
  | Except.error _ =>
    Response.mk 400 defaultContentType "No GraphQL query found in the request"
  | Except.ok request_data =>
    match execute_sync ex request_data (allowed_operation_types v req.method) with
    | Except.error e =>
      Response.mk 400 defaultContentType (e.as_http_error_reason req.method)
    | Except.ok result =>
      Response.mk 200 "application/json" (dumps (process_result result))

/-- The `application/json` branch (views.py lines 55-60): parse the body bytes;
a decode failure is an early 400 response. -/
def json_load (ext : External) (req : Request) : Except Response Json :=
  match ext.loads req.data with
  | Except.ok data => Except.ok data
  | Except.error _ =>
    Except.error (Response.mk 400 defaultContentType "Unable to parse request body as JSON")

/-- The `multipart/form-data` branch (views.py lines 61-76): decode the `operations`
and `map` form fields (defaulting to `"\x7b\x7d"`), then substitute uploaded files;
a decode failure is 400 "Unable to parse request body as JSON", a resolution failure
(the `KeyError` path) is 400 "File(s) missing in form data". -/
def multipart_load (ext : External) (req : Request) : Except Response Json :=
  match ext.loads (formGet req.form "operations" "\x7b\x7d") with
  | Except.error _ =>
    Except.error (Response.mk 400 defaultContentType "Unable to parse request body as JSON")
  | Except.ok operations =>
    match ext.loads (formGet req.form "map" "\x7b\x7d") with
    | Except.error _ =>
      Except.error (Response.mk 400 defaultContentType "Unable to parse request body as JSON")
    | Except.ok files_map =>
      match replace_placeholders_with_files operations files_map req.files with
      | Except.ok data => Except.ok data
      | Except.error _ =>
        Except.error (Response.mk 400 defaultContentType "File(s) missing in form data")

/-- The GET branch for requests matching neither content type (views.py lines 77-90):
decode the query parameters when present (a failure in the `variables` JSON is an
early 400), otherwise render GraphiQL when the decision predicate says so (Flask
turns the returned template string into a 200 response), otherwise 404. -/
def get_request_load (graphiql : Bool) (ext : External) (req : Request) :
    Except Response Json :=
  if req.args.isEmpty = false then
    match parse_query_params ext.loads req.args with
    | Except.ok data => Except.ok data
    | Except.error _ =>
      Except.error (Response.mk 400 defaultContentType "Unable to parse request body as JSON")
  else if ext.should_render_graphiql graphiql req then
    Except.error (Response.mk 200 defaultContentType ext.rendered_graphiql_page)
  else
    Except.error (Response.mk 404 defaultContentType "Not found")

/-- The content-type classification chain of `dispatch_request` (views.py lines
55-92), producing either the parsed data document or an early response:
`application/json` in the content type wins, then a `multipart/form-data` handling,
then the GET query-parameter/GraphiQL/404 handling, else 415. -/
def load_data (graphiql : Bool) (ext : External) (req : Request) :
    Except Response Json :=
  let content_type := req.content_type.getD ""
  if containsSubstr content_type "application/json" then
    json_load ext req
  else if startsWithStr content_type "multipart/form-data" then
    multipart_load ext req
  else if req.method = "GET" then
    get_request_load graphiql ext req
  else
    Except.error (Response.mk 415 defaultContentType "Unsupported Media Type")

/-- An early response passes through; a data document continues into normalization
and execution. -/
def finish (v : GraphQLView) (ex : Executor) (req : Request) :
    Except Response Json → Response
  | Except.error r => r
  | Except.ok data => dispatch_after_data v ex req data

/-- The embedding of `GraphQLView.dispatch_request` (views.py lines 46-122):
reject methods outside POST/GET with 405, then classify and decode the request,
then normalize, gate, execute and serialize. -/
def dispatch_request
    (v : GraphQLView) (ext : External) (ex : Executor) (req : Request) : Response :=
  if ¬ (req.method = "POST" ∨ req.method = "GET") then
    Response.mk 405 defaultContentType "Unsupported method, must be of request type POST or GET"
  else
    finish v ex req (load_data v.graphiql ext req)

/-- Claim C9: for every operations document, multipart upload resolution with an empty
file map returns the operations document unchanged. -/
theorem claim_C9 (ops : Json) (files : List (String × Nat)) :
    replace_placeholders_with_files ops (Json.obj []) files = Except.ok ops := rfl

/-- Claim C6: a method outside POST/GET is answered 405 whatever the content type,
and a POST whose content type is neither JSON nor multipart is answered 415; in both
cases the response is the same for every decode oracle and every executor, so no
normalization or execution takes place. -/
theorem claim_C6 (req : Request) :
    (¬ (req.method = "POST" ∨ req.method = "GET") →
      ∀ (v : GraphQLView) (ext : External) (ex : Executor),
        dispatch_request v ext ex req =
          Response.mk 405 defaultContentType
            "Unsupported method, must be of request type POST or GET") ∧
    (req.method = "POST" →
      containsSubstr (req.content_type.getD "") "application/json" = false →
      startsWithStr (req.content_type.getD "") "multipart/form-data" = false →
      ∀ (v : GraphQLView) (ext : External) (ex : Executor),
        dispatch_request v ext ex req =
          Response.mk 415 defaultContentType "Unsupported Media Type") := by
  constructor
  · intro h v ext ex
    simp [dispatch_request, h]
  · intro hm hct1 hct2 v ext ex
    simp [dispatch_request, load_data, finish, hm, hct1, hct2]

/-- Claim C7: for a GET request with no query parameters and a content type that is
neither JSON nor multipart, the dispatcher renders the exploratory page with status
200 when the GraphiQL decision predicate says so, and answers 404 otherwise; the
executor is never consulted. -/
theorem claim_C7 (v : GraphQLView) (ext : External) (req : Request)
    (hm : req.method = "GET")
    (hct1 : containsSubstr (req.content_type.getD "") "application/json" = false)
    (hct2 : startsWithStr (req.content_type.getD "") "multipart/form-data" = false)
    (hargs : req.args.isEmpty = true) :
    (ext.should_render_graphiql v.graphiql req = true →
      ∀ ex : Executor, dispatch_request v ext ex req =
        Response.mk 200 defaultContentType ext.rendered_graphiql_page) ∧
    (ext.should_render_graphiql v.graphiql req = false →
      ∀ ex : Executor, dispatch_request v ext ex req =
        Response.mk 404 defaultContentType "Not found") := by
  constructor
  · intro hg ex
    simp [dispatch_request, load_data, get_request_load, finish, hm, hct1, hct2, hargs, hg]
  · intro hg ex
    simp [dispatch_request, load_data, get_request_load, finish, hm, hct1, hct2, hargs, hg]

/-- Claim C3: a multipart/form-data request whose upload resolution fails (a map key
without an uploaded file, or a path that does not resolve in the operations document)
is answered 400 with the message "File(s) missing in form data". -/
theorem claim_C3 (v : GraphQLView) (ext : External) (req : Request) (ops fm : Json)
    (hm : req.method = "POST" ∨ req.method = "GET")
    (hct1 : containsSubstr (req.content_type.getD "") "application/json" = false)
    (hct2 : startsWithStr (req.content_type.getD "") "multipart/form-data" = true)
    (hops : ext.loads (formGet req.form "operations" "\x7b\x7d") = Except.ok ops)
    (hmap : ext.loads (formGet req.form "map" "\x7b\x7d") = Except.ok fm)
    (hrep : replace_placeholders_with_files ops fm req.files = Except.error ()) :
    ∀ ex : Executor, dispatch_request v ext ex req =
      Response.mk 400 defaultContentType "File(s) missing in form data" := by
  intro ex
  simp [dispatch_request, load_data, multipart_load, finish, hm, hct1, hct2, hops, hmap, hrep]

/-- Claim C1: for a GET request whose document parses to a query operation, with
`allow_queries_via_get` false the computed allowed set is empty and the request is
rejected 400 with the method-specific reason, while with `allow_queries_via_get`
true the allowed set is exactly the query type and the same request succeeds
with 200. -/
theorem claim_C1 (g : Bool) (ext : External) (ex : Executor) (req : Request)
    (data : Json) (rd : RequestData)
    (hm : req.method = "GET")
    (hload : load_data g ext req = Except.ok data)
    (hparse : parse_request_data data = Except.ok rd)
    (hop : ex.op_type_of rd.query = OperationType.query) :
    allowed_operation_types (GraphQLView.mk g false) req.method = [] ∧
    allowed_operation_types (GraphQLView.mk g true) req.method = [OperationType.query] ∧
    dispatch_request (GraphQLView.mk g false) ext ex req =
      Response.mk 400 defaultContentType
        (InvalidOperationTypeError.as_http_error_reason ⟨OperationType.query⟩ req.method) ∧
    dispatch_request (GraphQLView.mk g true) ext ex req =
      Response.mk 200 "application/json" (dumps (process_result (ex.run rd))) := by
  refine ⟨?_, ?_, ?_, ?_⟩
  · simp [allowed_operation_types, OperationType.from_http, hm]
  · simp [allowed_operation_types, OperationType.from_http, hm]
  · simp [dispatch_request, finish, dispatch_after_data, execute_sync,
      allowed_operation_types, OperationType.from_http, hm, hload, hparse, hop]
  · simp [dispatch_request, finish, dispatch_after_data, execute_sync,
      allowed_operation_types, OperationType.from_http, hm, hload, hparse, hop]

/-- Claim C2: whenever the executor returns an `ExecutionResult` (its `errors`
sequence may well be non-empty), the response is exactly status 200 with content
type `application/json` and the JSON serialization of the processed result. -/
theorem claim_C2 (v : GraphQLView) (ext : External) (ex : Executor) (req : Request)
    (data : Json) (rd : RequestData) (result : ExecutionResult)
    (hm : req.method = "POST" ∨ req.method = "GET")
    (hload : load_data v.graphiql ext req = Except.ok data)
    (hparse : parse_request_data data = Except.ok rd)
    (hexec : execute_sync ex rd (allowed_operation_types v req.method) = Except.ok result) :
    dispatch_request v ext ex req =
      Response.mk 200 "application/json" (dumps (process_result result)) := by
  simp [dispatch_request, finish, dispatch_after_data, hm, hload, hparse, hexec]

/-- A payload without a `query` field never normalizes. -/
theorem parse_request_data_no_query (d : Json) (h : has_query_field d = false) :
    parse_request_data d = Except.error () := by
  cases d <;> try rfl
  case obj fields =>
    cases hl : List.lookup "query" fields with
    | none => simp [parse_request_data, hl]
    | some q => exact absurd h (by simp [has_query_field, hl])

/-- Claim C5: a request whose payload parses to a document with no `query` field is
answered 400 with "No GraphQL query found in the request", for every executor —
execution is never invoked. -/
theorem claim_C5 (v : GraphQLView) (ext : External) (req : Request) (data : Json)
    (hm : req.method = "POST" ∨ req.method = "GET")
    (hload : load_data v.graphiql ext req = Except.ok data)
    (hq : has_query_field data = false) :
    ∀ ex : Executor, dispatch_request v ext ex req =
      Response.mk 400 defaultContentType "No GraphQL query found in the request" := by
  intro ex
  simp [dispatch_request, finish, dispatch_after_data, hm, hload,
    parse_request_data_no_query data hq]

/-- Claim C4: every JSON decode failure — the body of a JSON-content request, the
`operations` or `map` field of a multipart request, or the `variables` query
parameter of a GET request — yields status exactly 400. -/
theorem claim_C4 (v : GraphQLView) (ext : External) (ex : Executor) (req : Request)
    (hm : req.method = "POST" ∨ req.method = "GET")
    (hbad :
      (containsSubstr (req.content_type.getD "") "application/json" = true ∧
        ext.loads req.data = Except.error ()) ∨
      (containsSubstr (req.content_type.getD "") "application/json" = false ∧
        startsWithStr (req.content_type.getD "") "multipart/form-data" = true ∧
        (ext.loads (formGet req.form "operations" "\x7b\x7d") = Except.error () ∨
          ∃ ops, ext.loads (formGet req.form "operations" "\x7b\x7d") = Except.ok ops ∧
            ext.loads (formGet req.form "map" "\x7b\x7d") = Except.error ())) ∨
      (containsSubstr (req.content_type.getD "") "application/json" = false ∧
        startsWithStr (req.content_type.getD "") "multipart/form-data" = false ∧
        req.method = "GET" ∧ req.args.isEmpty = false ∧
        ∃ s, List.lookup "variables" req.args = some s ∧
          ext.loads s = Except.error ())) :
    (dispatch_request v ext ex req).status = 400 := by
  rcases hbad with ⟨hct, hdec⟩ | ⟨hct1, hct2, hops | ⟨ops, hops, hmapf⟩⟩ |
    ⟨hct1, hct2, hget, hargs, s, hs, hdec⟩
  · simp [dispatch_request, load_data, json_load, finish, hm, hct, hdec]
  · simp [dispatch_request, load_data, multipart_load, finish, hm, hct1, hct2, hops]
  · simp [dispatch_request, load_data, multipart_load, finish, hm, hct1, hct2, hops, hmapf]
  · simp [dispatch_request, load_data, get_request_load, finish, parse_query_params,
      hm, hct1, hct2, hget, hargs, hs, hdec]

/-- Claim C10: content-type classification precedes GET-specific handling — a GET
whose content type contains `application/json` is processed as a JSON body request
(so a bodiless such GET whose body fails to decode is answered 400, never the
exploratory page or 404), a GET whose content type starts with
`multipart/form-data` is processed as a multipart upload request, and only a GET
matching neither content type reaches the query-parameter/GraphiQL/404 handling. -/
theorem claim_C10 (v : GraphQLView) (ext : External) (ex : Executor) (req : Request)
    (hm : req.method = "GET") :
    (containsSubstr (req.content_type.getD "") "application/json" = true →
      dispatch_request v ext ex req = finish v ex req (json_load ext req)) ∧
    (containsSubstr (req.content_type.getD "") "application/json" = true →
      ext.loads req.data = Except.error () →
      dispatch_request v ext ex req =
        Response.mk 400 defaultContentType "Unable to parse request body as JSON") ∧
    (containsSubstr (req.content_type.getD "") "application/json" = false →
      startsWithStr (req.content_type.getD "") "multipart/form-data" = true →
      dispatch_request v ext ex req = finish v ex req (multipart_load ext req)) ∧
    (containsSubstr (req.content_type.getD "") "application/json" = false →
      startsWithStr (req.content_type.getD "") "multipart/form-data" = false →
      dispatch_request v ext ex req =
        finish v ex req (get_request_load v.graphiql ext req)) := by
  refine ⟨?_, ?_, ?_, ?_⟩
  · intro hct
    simp [dispatch_request, load_data, hm, hct]
  · intro hct hdec
    simp [dispatch_request, load_data, json_load, finish, hm, hct, hdec]
  · intro hct1 hct2
    simp [dispatch_request, load_data, hm, hct1, hct2]
  · intro hct1 hct2
    simp [dispatch_request, load_data, hm, hct1, hct2]

set_option maxRecDepth 8192

/-- `\x7b"query": "\x7b hello \x7d"\x7d` as a parsed document. -/
def helloDoc : Json := Json.obj [("query", Json.str "\x7b hello \x7d")]

/-- The normalized form of `helloDoc`. -/
def helloRD : RequestData := ⟨Json.str "\x7b hello \x7d", none, none⟩

/-- The executor result of the `hello` query. -/
def helloResult : ExecutionResult :=
  ⟨some (Json.obj [("hello", Json.str "Hello world")]), none, none⟩

/-- A result whose `errors` sequence is non-empty. -/
def errorResult : ExecutionResult := ⟨none, some [Json.str "boom"], none⟩

/-- A decode oracle that parses anything to `helloDoc`; GraphiQL disabled. -/
def okExternal : External := ⟨fun _ => Except.ok helloDoc, fun _ _ => false, "PAGE"⟩

/-- A decode oracle that fails on every input; GraphiQL disabled. -/
def failExternal : External := ⟨fun _ => Except.error (), fun _ _ => false, "PAGE"⟩

/-- A decode oracle that fails on every input; GraphiQL enabled. -/
def pageExternal : External := ⟨fun _ => Except.error (), fun _ _ => true, "PAGE"⟩

/-- A decode oracle that parses anything to a document with no `query` field. -/
def noQueryExternal : External :=
  ⟨fun _ => Except.ok (Json.obj [("foo", Json.null)]), fun _ _ => false, "PAGE"⟩

/-- A decode oracle for the multipart witness: the `map` form field decodes to a file
map whose key `0` has no uploaded file; everything else decodes to `\x7b\x7d`. -/
def multipartExternal : External :=
  ⟨fun s =>
    if s = "m" then Except.ok (Json.obj [("0", Json.arr [Json.str "variables.f"])])
    else Except.ok (Json.obj []),
   fun _ _ => false, "PAGE"⟩

/-- An executor that classifies every document as a query and answers `helloResult`. -/
def queryExecutor : Executor := ⟨fun _ => OperationType.query, fun _ => helloResult⟩

/-- An executor that classifies every document as a query and answers `errorResult`. -/
def errorExecutor : Executor := ⟨fun _ => OperationType.query, fun _ => errorResult⟩

/-- A GET request with a JSON content type. -/
def getJsonRequest : Request := ⟨"GET", some "application/json", "body", [], [], []⟩

/-- A POST request with a JSON content type. -/
def postJsonRequest : Request := ⟨"POST", some "application/json", "body", [], [], []⟩

/-- A request with a method outside GET/POST. -/
def putRequest : Request := ⟨"PUT", none, "", [], [], []⟩

/-- A POST request with a content type that is neither JSON nor multipart. -/
def postTextRequest : Request := ⟨"POST", some "text/plain", "", [], [], []⟩

/-- A bodiless GET request: no content type, no body, no query parameters. -/
def bareGetRequest : Request := ⟨"GET", none, "", [], [], []⟩

/-- A POST multipart request whose form carries a `map` field only. -/
def multipartRequest : Request :=
  ⟨"POST", some "multipart/form-data; boundary=x", "", [("map", "m")], [], []⟩

/-- A GET multipart request. -/
def getMultipartRequest : Request :=
  ⟨"GET", some "multipart/form-data; boundary=x", "", [("map", "m")], [], []⟩

/-- Claim C8 (evaluation at the failing scenario): the body of a successful 200
response is `json.dumps` of the processed result with the default separators —
`dispatch_request` exposes no encoder or dumps-parameter configuration, so the
output demanded by the repository's `test_can_pass_dumps_params` (custom
separators) is not produced. -/
theorem claim_C8_fixed_serialization :
    dispatch_request ⟨true, true⟩ okExternal queryExecutor postJsonRequest =
      Response.mk 200 "application/json"
        "\x7b\"data\": \x7b\"hello\": \"Hello world\"\x7d\x7d" ∧
    dumps (process_result helloResult) =
      "\x7b\"data\": \x7b\"hello\": \"Hello world\"\x7d\x7d" ∧
    "\x7b\"data\": \x7b\"hello\": \"Hello world\"\x7d\x7d" ≠
      "\x7b\"data\"👉 \x7b\"hello\"👉 \"Hello world\"\x7d\x7d" := by
  refine ⟨rfl, rfl, ?_⟩
  decide

/-- Witness for claim C1 at a concrete GET query request. -/
theorem claim_C1_witness :
    getJsonRequest.method = "GET" ∧
    load_data true okExternal getJsonRequest = Except.ok helloDoc ∧
    parse_request_data helloDoc = Except.ok helloRD ∧
    queryExecutor.op_type_of helloRD.query = OperationType.query ∧
    (allowed_operation_types ⟨true, false⟩ getJsonRequest.method = [] ∧
     allowed_operation_types ⟨true, true⟩ getJsonRequest.method = [OperationType.query] ∧
     dispatch_request ⟨true, false⟩ okExternal queryExecutor getJsonRequest =
       Response.mk 400 defaultContentType
         (InvalidOperationTypeError.as_http_error_reason ⟨OperationType.query⟩
           getJsonRequest.method) ∧
     dispatch_request ⟨true, true⟩ okExternal queryExecutor getJsonRequest =
       Response.mk 200 "application/json"
         (dumps (process_result (queryExecutor.run helloRD)))) :=
  ⟨rfl, rfl, rfl, rfl,
    claim_C1 true okExternal queryExecutor getJsonRequest helloDoc helloRD rfl rfl rfl rfl⟩

/-- Witness for claim C2 at a concrete POST request whose result carries errors. -/
theorem claim_C2_witness :
    load_data true okExternal postJsonRequest = Except.ok helloDoc ∧
    parse_request_data helloDoc = Except.ok helloRD ∧
    execute_sync errorExecutor helloRD
      (allowed_operation_types ⟨true, true⟩ postJsonRequest.method) =
        Except.ok errorResult ∧
    errorResult.errors = some [Json.str "boom"] ∧
    dispatch_request ⟨true, true⟩ okExternal errorExecutor postJsonRequest =
      Response.mk 200 "application/json" (dumps (process_result errorResult)) :=
  ⟨rfl, rfl, rfl, rfl,
    claim_C2 ⟨true, true⟩ okExternal errorExecutor postJsonRequest helloDoc helloRD
      errorResult (Or.inl rfl) rfl rfl rfl⟩

/-- Witness for claim C3 at a concrete multipart request whose map key `0` has no
uploaded file. -/
theorem claim_C3_witness :
    multipartExternal.loads (formGet multipartRequest.form "map" "\x7b\x7d") =
      Except.ok (Json.obj [("0", Json.arr [Json.str "variables.f"])]) ∧
    replace_placeholders_with_files (Json.obj [])
      (Json.obj [("0", Json.arr [Json.str "variables.f"])]) multipartRequest.files =
        Except.error () ∧
    dispatch_request ⟨true, true⟩ multipartExternal queryExecutor multipartRequest =
      Response.mk 400 defaultContentType "File(s) missing in form data" :=
  ⟨rfl, rfl,
    claim_C3 ⟨true, true⟩ multipartExternal multipartRequest (Json.obj [])
      (Json.obj [("0", Json.arr [Json.str "variables.f"])])
      (Or.inl rfl) (by decide) (by decide) rfl rfl rfl queryExecutor⟩

/-- Witness for claim C4 at a concrete JSON request whose body fails to decode. -/
theorem claim_C4_witness :
    containsSubstr (getJsonRequest.content_type.getD "") "application/json" = true ∧
    failExternal.loads getJsonRequest.data = Except.error () ∧
    (dispatch_request ⟨true, true⟩ failExternal queryExecutor getJsonRequest).status = 400 :=
  ⟨by decide, rfl,
    claim_C4 ⟨true, true⟩ failExternal queryExecutor getJsonRequest
      (Or.inr rfl) (Or.inl ⟨by decide, rfl⟩)⟩

/-- Witness for claim C5 at a concrete POST request whose payload has no query. -/
theorem claim_C5_witness :
    load_data true noQueryExternal postJsonRequest =
      Except.ok (Json.obj [("foo", Json.null)]) ∧
    has_query_field (Json.obj [("foo", Json.null)]) = false ∧
    dispatch_request ⟨true, true⟩ noQueryExternal queryExecutor postJsonRequest =
      Response.mk 400 defaultContentType "No GraphQL query found in the request" :=
  ⟨rfl, rfl,
    claim_C5 ⟨true, true⟩ noQueryExternal postJsonRequest (Json.obj [("foo", Json.null)])
      (Or.inl rfl) rfl rfl queryExecutor⟩

/-- Witness for claim C6 at a PUT request and at a text/plain POST request. -/
theorem claim_C6_witness :
    ¬ (putRequest.method = "POST" ∨ putRequest.method = "GET") ∧
    dispatch_request ⟨true, true⟩ failExternal queryExecutor putRequest =
      Response.mk 405 defaultContentType
        "Unsupported method, must be of request type POST or GET" ∧
    postTextRequest.method = "POST" ∧
    dispatch_request ⟨true, true⟩ failExternal queryExecutor postTextRequest =
      Response.mk 415 defaultContentType "Unsupported Media Type" :=
  ⟨by decide,
    (claim_C6 putRequest).1 (by decide) ⟨true, true⟩ failExternal queryExecutor,
    rfl,
    (claim_C6 postTextRequest).2 rfl (by decide) (by decide) ⟨true, true⟩ failExternal
      queryExecutor⟩

/-- Witness for claim C7 at a bodiless GET request, with GraphiQL on and off. -/
theorem claim_C7_witness :
    bareGetRequest.args.isEmpty = true ∧
    pageExternal.should_render_graphiql true bareGetRequest = true ∧
    dispatch_request ⟨true, true⟩ pageExternal queryExecutor bareGetRequest =
      Response.mk 200 defaultContentType pageExternal.rendered_graphiql_page ∧
    failExternal.should_render_graphiql true bareGetRequest = false ∧
    dispatch_request ⟨true, true⟩ failExternal queryExecutor bareGetRequest =
      Response.mk 404 defaultContentType "Not found" :=
  ⟨rfl, rfl,
    (claim_C7 ⟨true, true⟩ pageExternal bareGetRequest rfl (by decide) (by decide) rfl).1
      rfl queryExecutor,
    rfl,
    (claim_C7 ⟨true, true⟩ failExternal bareGetRequest rfl (by decide) (by decide) rfl).2
      rfl queryExecutor⟩

/-- Witness for claim C10: a bodiless GET with JSON content type is answered 400,
a GET multipart request follows the multipart branch, and a bare GET follows the
query-parameter/GraphiQL/404 branch. -/
theorem claim_C10_witness :
    containsSubstr (getJsonRequest.content_type.getD "") "application/json" = true ∧
    dispatch_request ⟨true, true⟩ failExternal queryExecutor getJsonRequest =
      Response.mk 400 defaultContentType "Unable to parse request body as JSON" ∧
    dispatch_request ⟨true, true⟩ multipartExternal queryExecutor getMultipartRequest =
      finish ⟨true, true⟩ queryExecutor getMultipartRequest
        (multipart_load multipartExternal getMultipartRequest) ∧
    dispatch_request ⟨true, true⟩ failExternal queryExecutor bareGetRequest =
      finish ⟨true, true⟩ queryExecutor bareGetRequest
        (get_request_load true failExternal bareGetRequest) :=
  ⟨by decide,
    (claim_C10 ⟨true, true⟩ failExternal queryExecutor getJsonRequest rfl).2.1
      (by decide) rfl,
    (claim_C10 ⟨true, true⟩ multipartExternal queryExecutor getMultipartRequest rfl).2.2.1
      (by decide) (by decide),
    (claim_C10 ⟨true, true⟩ failExternal queryExecutor bareGetRequest rfl).2.2.2
      (by decide) (by decide)⟩
